import Mathlib

/-!
# Verification of libfprint's device action dispatcher and the mafpmoc wire constants

This file gives a shallow embedding of the device action dispatcher of
`src/libfprint/fp-device.c` (the public entry points `fp_device_open`,
`fp_device_close`, `fp_device_suspend`, `fp_device_resume`,
`fp_device_enroll`, `fp_device_verify`, `fp_device_identify`,
`fp_device_capture`, `fp_device_delete_print`, `fp_device_list_prints`,
`fp_device_clear_storage` and the idle cancellation callback
`fp_device_cancel_in_idle_cb`), together with the wire-format constants of
`src/libfprint/drivers/mafpmoc/mafpmoc.h`, and proves the advertised
dispatcher properties against it.

Each public entry point is translated as a pure function from the device's
private state (`FpDevicePrivate`) and its call arguments to the pair of an
immediate task outcome (`TaskReturn`) and the updated private state.  An
outcome `TaskReturn.error e` corresponds to `g_task_return_error` firing
before the driver is reached, `TaskReturn.ok` to `g_task_return_boolean
(task, TRUE)` firing immediately, and `TaskReturn.pending d` to the branch
that records the operation and invokes the driver entry point `d`.
-/

/-- Discrete temperature state of the device (`FpTemperature`:
`FP_TEMPERATURE_COLD/WARM/HOT`). -/
inductive FpTemperature
  | COLD
  | WARM
  | HOT
  deriving DecidableEq, Repr

/-- Error domain of the dispatcher.  The first eight constructors embed
`FpDeviceError` (`FP_DEVICE_ERROR_*`); `cancelled` embeds the GLib
`G_IO_ERROR_CANCELLED` error returned by `g_task_return_error_if_cancelled`;
`io` embeds a transport error propagated from `g_usb_device_open`. -/
inductive FpDeviceError
  | alreadyOpen
  | busy
  | notOpen
  | notSupported
  | dataInvalid
  | tooHot
  | removed
  | general
  | cancelled
  | io
  deriving DecidableEq, Repr

/-- `FpiDeviceAction`: the kind of the currently active operation. -/
inductive FpiDeviceAction
  | NONE
  | PROBE
  | OPEN
  | CLOSE
  | ENROLL
  | VERIFY
  | IDENTIFY
  | CAPTURE
  | LIST
  | DELETE
  | CLEAR_STORAGE
  deriving DecidableEq, Repr

/-- A driver (or fpi-level) entry point invoked by the dispatcher. -/
inductive DriverEntry
  | dOpen
  | dClose
  | dEnroll
  | dVerify
  | dIdentify
  | dCapture
  | dDelete
  | dList
  | dClearStorage
  | dSuspend
  | dResume
  | dCancel
  deriving DecidableEq, Repr

/-- `FpFingerStatus` (modelled with its three flag values). -/
inductive FpFingerStatus
  | NONE
  | NEEDED
  | PRESENT
  deriving DecidableEq, Repr

/-- `FpDeviceType`. -/
inductive FpDeviceType
  | usb
  | virtual
  | udev
  deriving DecidableEq, Repr

/-- The feature bits of `FpDeviceFeature` consulted by the dispatcher,
one boolean per bit of `priv->features`. -/
structure FpDeviceFeatures where
  capture : Bool
  verify : Bool
  identify : Bool
  storage : Bool
  storageDelete : Bool
  storageClear : Bool
  updatePrint : Bool
  deriving DecidableEq, Repr

/-- The slots of `FpDeviceClass` whose presence the dispatcher tests
(`cls->verify`, `cls->identify`, `cls->capture`, `cls->delete`,
`cls->list`, `cls->cancel`); `true` means the driver provides the entry
point. -/
structure FpDeviceClass where
  verify : Bool
  identify : Bool
  capture : Bool
  delete : Bool
  list : Bool
  cancel : Bool
  deriving DecidableEq, Repr

/-- `FpiPrintType` (`fpi-type` property of an `FpPrint`). -/
inductive FpiPrintType
  | undefined
  | raw
  | nbis
  deriving DecidableEq, Repr

/-- The part of an `FpPrint` the dispatcher looks at: its `fpi-type` and
its compatibility tag (driver id and device id). -/
structure FpPrint where
  fpiType : FpiPrintType
  driverId : Nat
  deviceId : Nat
  deriving DecidableEq, Repr

/-- The thermal model state of a device: the discrete state
`priv->temp_current`, the continuous ratio `priv->temp_current_ratio` in
`[0,1]`, the monotonic timestamp of the last update, whether the sensor is
currently marked active (the running "active" timer), and the
driver-supplied configuration (`temp_hot_seconds`/`temp_cold_seconds`,
negative when temperature management is disabled) with the configured
discrete-state thresholds on the ratio. -/
structure ThermalModel where
  tempCurrent : FpTemperature
  ratio : ℚ
  lastUpdate : ℕ
  active : Bool
  hotSeconds : ℤ
  coldSeconds : ℤ
  hotThresh : ℚ
  coldThresh : ℚ
  deriving DecidableEq, Repr

/-- Modelled from the spec: `fpi_device_update_temp` lives in
`fpi-device.c`, which is not part of the sources here; per the spec's
Thermal Model section, on each update the ratio is extrapolated linearly
from the wall-clock time elapsed since the last update — rising towards 1
over `temp_hot_seconds` while the sensor was active, falling towards 0
over `temp_cold_seconds` while idle — crossing a configured threshold
flips the discrete state, the update records whether the sensor is now
active (starting or stopping the "active" timer), and a driver that opts
out (negative `temp_hot_seconds`) disables the ramp entirely. -/
def fpi_device_update_temp (m : ThermalModel) (now : ℕ) (isActive : Bool) :
    ThermalModel :=
  if m.hotSeconds < 0 then
    { m with active := isActive, lastUpdate := now }
  else
    let elapsed : ℚ := (now : ℚ) - (m.lastUpdate : ℚ)
    let ratio : ℚ :=
      if m.active then min 1 (m.ratio + elapsed / (m.hotSeconds : ℚ))
      else max 0 (m.ratio - elapsed / (m.coldSeconds : ℚ))
    let temp : FpTemperature :=
      if m.hotThresh ≤ ratio then FpTemperature.HOT
      else if ratio ≤ m.coldThresh then FpTemperature.COLD
      else FpTemperature.WARM
    { m with tempCurrent := temp, ratio := ratio, active := isActive,
             lastUpdate := now }

/-- `FpDevicePrivate`: the per-device mutable state read and written by the
dispatcher.  Pointer-valued fields that the dispatcher only tests for
NULL (`current_task`, `suspend_resume_task`, `current_cancellable`,
`current_idle_cancel_source`) are modelled as booleans recording whether
the pointer is set. -/
structure FpDevicePrivate where
  type : FpDeviceType
  is_open : Bool
  is_suspended : Bool
  is_removed : Bool
  current_action : FpiDeviceAction
  current_task : Bool
  suspend_resume_task : Bool
  current_cancellable : Bool
  current_idle_cancel_source : Bool
  critical_section : Bool
  cancel_queued : Bool
  wait_for_finger : Bool
  finger_status : FpFingerStatus
  features : FpDeviceFeatures
  temp : ThermalModel
  driverId : Nat
  deviceId : Nat
  deriving DecidableEq, Repr

/-- Immediate outcome of a public dispatcher call: the task was resolved
with an error, resolved with TRUE, or left pending with the given driver
entry point invoked. -/
inductive TaskReturn
  | error (e : FpDeviceError)
  | ok
  | pending (d : DriverEntry)
  deriving DecidableEq, Repr

/-- Modelled from the spec: `fp_print_compatible` lives in `fp-print.c`,
which is not part of the sources here; per the spec's data model, a print
carries a compatibility tag (driver id plus device id) that must match the
device before the print may be used for an update. -/
def fp_print_compatible (p : FpPrint) (priv : FpDevicePrivate) : Bool :=
  p.driverId == priv.driverId && p.deviceId == priv.deviceId

/-- Modelled from the spec: `fpi_device_report_finger_status` lives in
`fpi-device.c`, which is not part of the sources here; it sets the
device's finger-presence status property to the given value. -/
def fpi_device_report_finger_status (priv : FpDevicePrivate)
    (s : FpFingerStatus) : FpDevicePrivate :=
  { priv with finger_status := s }

/-- `setup_task_cancellable`: creates the internal cancellable and (when
the driver has a cancel entry point) connects the cancellation bridge. -/
def setup_task_cancellable (priv : FpDevicePrivate) : FpDevicePrivate :=
  { priv with current_cancellable := true }

/-- `fp_device_open`.  `cancelled` is whether the supplied cancellable is
already cancelled at entry; `usbOpenOk` is whether `g_usb_device_open`
succeeds (USB devices only). -/
def fp_device_open (priv : FpDevicePrivate) (cancelled usbOpenOk : Bool) :
    TaskReturn × FpDevicePrivate :=
  if cancelled then (TaskReturn.error FpDeviceError.cancelled, priv)
  else if priv.is_open then (TaskReturn.error FpDeviceError.alreadyOpen, priv)
  else if priv.current_task || priv.is_suspended then
    (TaskReturn.error FpDeviceError.busy, priv)
  else if priv.type == FpDeviceType.usb && !usbOpenOk then
    (TaskReturn.error FpDeviceError.io, priv)
  else
    let priv := { priv with current_action := FpiDeviceAction.OPEN,
                            current_task := true }
    let priv := setup_task_cancellable priv
    let priv := fpi_device_report_finger_status priv FpFingerStatus.NONE
    (TaskReturn.pending DriverEntry.dOpen, priv)

/-- `fp_device_close`. -/
def fp_device_close (priv : FpDevicePrivate) (cancelled : Bool) :
    TaskReturn × FpDevicePrivate :=
  if cancelled then (TaskReturn.error FpDeviceError.cancelled, priv)
  else if !priv.is_open then (TaskReturn.error FpDeviceError.notOpen, priv)
  else if priv.current_task || priv.is_suspended then
    (TaskReturn.error FpDeviceError.busy, priv)
  else
    let priv := { priv with current_action := FpiDeviceAction.CLOSE,
                            current_task := true }
    let priv := setup_task_cancellable priv
    (TaskReturn.pending DriverEntry.dClose, priv)

/-- `fp_device_suspend`.  The function takes a cancellable argument that is
"currently not used": it is never checked. -/
def fp_device_suspend (priv : FpDevicePrivate) (_cancelled : Bool) :
    TaskReturn × FpDevicePrivate :=
  if priv.suspend_resume_task || priv.is_suspended then
    (TaskReturn.error FpDeviceError.busy, priv)
  else if priv.is_removed then (TaskReturn.error FpDeviceError.removed, priv)
  else
    (TaskReturn.pending DriverEntry.dSuspend,
     { priv with suspend_resume_task := true })

/-- `fp_device_resume`.  The cancellable argument is "currently not used":
it is never checked. -/
def fp_device_resume (priv : FpDevicePrivate) (_cancelled : Bool) :
    TaskReturn × FpDevicePrivate :=
  if priv.suspend_resume_task || !priv.is_suspended then
    (TaskReturn.error FpDeviceError.busy, priv)
  else if priv.is_removed then (TaskReturn.error FpDeviceError.removed, priv)
  else
    (TaskReturn.pending DriverEntry.dResume,
     { priv with suspend_resume_task := true })

/-- `fp_device_enroll`.  `template_print` is `none` when the caller did not
pass an `FpPrint` (the `FP_IS_PRINT` test fails); `now` is the monotonic
time at which the call runs (used by the thermal update). -/
def fp_device_enroll (priv : FpDevicePrivate) (cancelled : Bool)
    (template_print : Option FpPrint) (now : ℕ) :
    TaskReturn × FpDevicePrivate :=
  if cancelled then (TaskReturn.error FpDeviceError.cancelled, priv)
  else if !priv.is_open then (TaskReturn.error FpDeviceError.notOpen, priv)
  else if priv.current_task || priv.is_suspended then
    (TaskReturn.error FpDeviceError.busy, priv)
  else
    match template_print with
    | none => (TaskReturn.error FpDeviceError.dataInvalid, priv)
    | some tp =>
      if tp.fpiType != FpiPrintType.undefined &&
          !priv.features.updatePrint then
        (TaskReturn.error FpDeviceError.dataInvalid, priv)
      else if tp.fpiType != FpiPrintType.undefined &&
          !fp_print_compatible tp priv then
        (TaskReturn.error FpDeviceError.dataInvalid, priv)
      else
        let priv := { priv with temp := fpi_device_update_temp priv.temp now true }
        if priv.temp.tempCurrent = FpTemperature.HOT then
          (TaskReturn.error FpDeviceError.tooHot,
           { priv with temp := fpi_device_update_temp priv.temp now false })
        else
          let priv := { priv with current_action := FpiDeviceAction.ENROLL,
                                  current_task := true }
          let priv := setup_task_cancellable priv
          (TaskReturn.pending DriverEntry.dEnroll, priv)

/-- `fp_device_verify`. -/
def fp_device_verify (priv : FpDevicePrivate) (cls : FpDeviceClass)
    (cancelled : Bool) (now : ℕ) : TaskReturn × FpDevicePrivate :=
  if cancelled then (TaskReturn.error FpDeviceError.cancelled, priv)
  else if !priv.is_open then (TaskReturn.error FpDeviceError.notOpen, priv)
  else if priv.current_task || priv.is_suspended then
    (TaskReturn.error FpDeviceError.busy, priv)
  else if !cls.verify || !priv.features.verify then
    (TaskReturn.error FpDeviceError.notSupported, priv)
  else
    let priv := { priv with temp := fpi_device_update_temp priv.temp now true }
    if priv.temp.tempCurrent = FpTemperature.HOT then
      (TaskReturn.error FpDeviceError.tooHot,
       { priv with temp := fpi_device_update_temp priv.temp now false })
    else
      let priv := { priv with current_action := FpiDeviceAction.VERIFY,
                              current_task := true }
      let priv := setup_task_cancellable priv
      (TaskReturn.pending DriverEntry.dVerify, priv)

/-- `fp_device_identify`.  `galleryNull` is whether the caller passed a NULL
`prints` array. -/
def fp_device_identify (priv : FpDevicePrivate) (cls : FpDeviceClass)
    (cancelled galleryNull : Bool) (now : ℕ) :
    TaskReturn × FpDevicePrivate :=
  if cancelled then (TaskReturn.error FpDeviceError.cancelled, priv)
  else if !priv.is_open then (TaskReturn.error FpDeviceError.notOpen, priv)
  else if priv.current_task || priv.is_suspended then
    (TaskReturn.error FpDeviceError.busy, priv)
  else if !cls.identify || !priv.features.identify then
    (TaskReturn.error FpDeviceError.notSupported, priv)
  else if galleryNull then (TaskReturn.error FpDeviceError.dataInvalid, priv)
  else
    let priv := { priv with temp := fpi_device_update_temp priv.temp now true }
    if priv.temp.tempCurrent = FpTemperature.HOT then
      (TaskReturn.error FpDeviceError.tooHot,
       { priv with temp := fpi_device_update_temp priv.temp now false })
    else
      let priv := { priv with current_action := FpiDeviceAction.IDENTIFY,
                              current_task := true }
      let priv := setup_task_cancellable priv
      (TaskReturn.pending DriverEntry.dIdentify, priv)

/-- `fp_device_capture`. -/
def fp_device_capture (priv : FpDevicePrivate) (cls : FpDeviceClass)
    (wait_for_finger cancelled : Bool) (now : ℕ) :
    TaskReturn × FpDevicePrivate :=
  if cancelled then (TaskReturn.error FpDeviceError.cancelled, priv)
  else if !priv.is_open then (TaskReturn.error FpDeviceError.notOpen, priv)
  else if priv.current_task || priv.is_suspended then
    (TaskReturn.error FpDeviceError.busy, priv)
  else if !cls.capture || !priv.features.capture then
    (TaskReturn.error FpDeviceError.notSupported, priv)
  else
    let priv := { priv with temp := fpi_device_update_temp priv.temp now true }
    if priv.temp.tempCurrent = FpTemperature.HOT then
      (TaskReturn.error FpDeviceError.tooHot,
       { priv with temp := fpi_device_update_temp priv.temp now false })
    else
      let priv := { priv with current_action := FpiDeviceAction.CAPTURE,
                              current_task := true }
      let priv := setup_task_cancellable priv
      let priv := { priv with wait_for_finger := wait_for_finger }
      (TaskReturn.pending DriverEntry.dCapture, priv)

/-- `fp_device_delete_print`. -/
def fp_device_delete_print (priv : FpDevicePrivate) (cls : FpDeviceClass)
    (cancelled : Bool) : TaskReturn × FpDevicePrivate :=
  if cancelled then (TaskReturn.error FpDeviceError.cancelled, priv)
  else if !priv.is_open then (TaskReturn.error FpDeviceError.notOpen, priv)
  else if priv.current_task || priv.is_suspended then
    (TaskReturn.error FpDeviceError.busy, priv)
  else if !cls.delete || !priv.features.storageDelete then
    (TaskReturn.ok, priv)
  else
    let priv := { priv with current_action := FpiDeviceAction.DELETE,
                            current_task := true }
    let priv := setup_task_cancellable priv
    (TaskReturn.pending DriverEntry.dDelete, priv)

/-- `fp_device_list_prints`. -/
def fp_device_list_prints (priv : FpDevicePrivate) (cls : FpDeviceClass)
    (cancelled : Bool) : TaskReturn × FpDevicePrivate :=
  if cancelled then (TaskReturn.error FpDeviceError.cancelled, priv)
  else if !priv.is_open then (TaskReturn.error FpDeviceError.notOpen, priv)
  else if priv.current_task || priv.is_suspended then
    (TaskReturn.error FpDeviceError.busy, priv)
  else if !cls.list || !priv.features.storage then
    (TaskReturn.error FpDeviceError.notSupported, priv)
  else
    let priv := { priv with current_action := FpiDeviceAction.LIST,
                            current_task := true }
    let priv := setup_task_cancellable priv
    (TaskReturn.pending DriverEntry.dList, priv)

/-- `fp_device_clear_storage`.  Note: unlike every other action, the busy
check tests only `priv->current_task`, not `priv->is_suspended`. -/
def fp_device_clear_storage (priv : FpDevicePrivate) (cancelled : Bool) :
    TaskReturn × FpDevicePrivate :=
  if cancelled then (TaskReturn.error FpDeviceError.cancelled, priv)
  else if !priv.is_open then (TaskReturn.error FpDeviceError.notOpen, priv)
  else if priv.current_task then (TaskReturn.error FpDeviceError.busy, priv)
  else if !priv.features.storage then
    (TaskReturn.error FpDeviceError.notSupported, priv)
  else if !priv.features.storageClear then
    (TaskReturn.error FpDeviceError.notSupported, priv)
  else
    let priv := { priv with current_action := FpiDeviceAction.CLEAR_STORAGE,
                            current_task := true }
    let priv := setup_task_cancellable priv
    (TaskReturn.pending DriverEntry.dClearStorage, priv)

/-- Result of running the idle cancellation callback: the updated device
state and whether `cls->cancel` was invoked. -/
structure CancelCbResult where
  priv : FpDevicePrivate
  cancelCalled : Bool
  deriving DecidableEq, Repr

/-- `fp_device_cancel_in_idle_cb`: runs when the scheduled idle source for
a cancelled operation fires (the callback asserts that `cls->cancel`
exists and `priv->current_action != FPI_DEVICE_ACTION_NONE`). -/
def fp_device_cancel_in_idle_cb (priv : FpDevicePrivate) : CancelCbResult :=
  let priv := { priv with current_idle_cancel_source := false }
  if priv.critical_section then
    { priv := fpi_device_report_finger_status
        { priv with cancel_queued := true } FpFingerStatus.NONE,
      cancelCalled := false }
  else
    { priv := fpi_device_report_finger_status priv FpFingerStatus.NONE,
      cancelCalled := true }

/-! ## Wire-format constants of `drivers/mafpmoc/mafpmoc.h` -/

/-- `MAFP_USB_BUFFER_SIZE`. -/
def MAFP_USB_BUFFER_SIZE : ℕ := 512

/-- `PACKAGE_CRC_SIZE`. -/
def PACKAGE_CRC_SIZE : ℕ := 2

/-- `PACKAGE_HEADER_SIZE`. -/
def PACKAGE_HEADER_SIZE : ℕ := 9

/-- `PACKAGE_DATA_SIZE_MAX`. -/
def PACKAGE_DATA_SIZE_MAX : ℕ :=
  MAFP_USB_BUFFER_SIZE - PACKAGE_HEADER_SIZE - PACKAGE_CRC_SIZE

/-- `TEMPLATE_UID_SIZE`. -/
def TEMPLATE_UID_SIZE : ℕ := 128

/-- `DEVICE_SN_SIZE`. -/
def DEVICE_SN_SIZE : ℕ := 32

/-- `MAX_FINGER_NUM`. -/
def MAX_FINGER_NUM : ℕ := 10

/-- `MAX_USER_NUM`. -/
def MAX_USER_NUM : ℕ := 3

/-- `MAX_NOTEPAD_PAGE`. -/
def MAX_NOTEPAD_PAGE : ℕ := 16

/-- Number of slots of the on-device template table: the `uint8_t
list[256]` field of `mafp_tpl_table_t` (matching `mafp_template_t
total_list[256]` in `mafp_templates_t`). -/
def TPL_TABLE_SLOTS : ℕ := 256

/-- `mafp_tpl_table_t`: `used_num` plus the fixed 256-entry slot list. -/
structure mafp_tpl_table_t where
  used_num : Nat
  list : Mathlib.Vector Nat TPL_TABLE_SLOTS
  deriving DecidableEq

/-- `mafp_template_t`: a 32-byte serial, a 16-bit id and a 128-byte UID
string. -/
structure mafp_template_t where
  sn : Mathlib.Vector Nat DEVICE_SN_SIZE
  id : Nat
  uid : Mathlib.Vector Nat TEMPLATE_UID_SIZE
  deriving DecidableEq

/-! ## Concrete fixtures used by witnesses and counterexamples -/

/-- A cold thermal model of a driver that opts out of temperature
management (negative `temp_hot_seconds`), so the discrete state is
preserved across updates. -/
def thermalCool : ThermalModel :=
  { tempCurrent := FpTemperature.COLD, ratio := 0, lastUpdate := 0,
    active := false, hotSeconds := -1, coldSeconds := -1,
    hotThresh := 1, coldThresh := 0 }

/-- The same model saturated hot. -/
def thermalHotM : ThermalModel :=
  { thermalCool with tempCurrent := FpTemperature.HOT, ratio := 1,
                     active := true }

/-- A feature mask with every dispatcher-relevant bit set. -/
def featuresAll : FpDeviceFeatures :=
  { capture := true, verify := true, identify := true, storage := true,
    storageDelete := true, storageClear := true, updatePrint := true }

/-- A driver class providing every entry point. -/
def clsAll : FpDeviceClass :=
  { verify := true, identify := true, capture := true, delete := true,
    list := true, cancel := true }

/-- A driver class without a delete entry point. -/
def clsNoDelete : FpDeviceClass := { clsAll with delete := false }

/-- An open, idle, cool virtual device. -/
def idleOpenDevice : FpDevicePrivate :=
  { type := FpDeviceType.virtual, is_open := true, is_suspended := false,
    is_removed := false, current_action := FpiDeviceAction.NONE,
    current_task := false, suspend_resume_task := false,
    current_cancellable := false, current_idle_cancel_source := false,
    critical_section := false, cancel_queued := false,
    wait_for_finger := false, finger_status := FpFingerStatus.NONE,
    features := featuresAll, temp := thermalCool, driverId := 0,
    deviceId := 0 }

/-- The same device before it was opened. -/
def closedDevice : FpDevicePrivate := { idleOpenDevice with is_open := false }

/-- An open device with an operation already pending. -/
def busyOpenDevice : FpDevicePrivate :=
  { idleOpenDevice with current_task := true,
                        current_action := FpiDeviceAction.VERIFY }

/-- An open, idle device whose sensor is saturated hot. -/
def hotOpenDevice : FpDevicePrivate := { idleOpenDevice with temp := thermalHotM }

/-- An open, idle device that has been suspended. -/
def suspendedDevice : FpDevicePrivate := { idleOpenDevice with is_suspended := true }

/-- A suspended device that has also been physically removed. -/
def removedSuspendedDevice : FpDevicePrivate :=
  { idleOpenDevice with is_suspended := true, is_removed := true }

/-- A device with a verify operation active inside a driver critical
section, finger present, and the idle cancel source scheduled. -/
def criticalVerifyDevice : FpDevicePrivate :=
  { idleOpenDevice with current_task := true,
                        current_action := FpiDeviceAction.VERIFY,
                        critical_section := true,
                        finger_status := FpFingerStatus.PRESENT,
                        current_idle_cancel_source := true }

/-- A fresh template print compatible with the fixture device. -/
def tp0 : FpPrint := { fpiType := FpiPrintType.undefined, driverId := 0, deviceId := 0 }

/-- The device state produced by the too-hot failure path: the thermal
model updated to active and immediately back to inactive, everything else
untouched. -/
def thermal_fail_state (priv : FpDevicePrivate) (now : ℕ) : FpDevicePrivate :=
  { priv with temp := (fpi_device_update_temp
      (fpi_device_update_temp priv.temp now true) now false) }

/-- The device state after an enroll operation has been admitted: thermal
model marked active, enroll recorded as the active action, the task stored
and the cancellation bridge armed. -/
def enroll_started_state (priv : FpDevicePrivate) (now : ℕ) : FpDevicePrivate :=
  { priv with temp := fpi_device_update_temp priv.temp now true,
              current_action := FpiDeviceAction.ENROLL,
              current_task := true,
              current_cancellable := true }

/-- Stopping the thermal "active" timer leaves the model inactive. -/
theorem update_temp_inactive (m : ThermalModel) (now : ℕ) :
    (fpi_device_update_temp m now false).active = false := by
  unfold fpi_device_update_temp
  split <;> rfl

/-- C8: the mafpmoc wire-format and resource constants satisfy the spec's
arithmetic: 9-byte header, 2-byte CRC, 512-byte USB frame, maximum payload
`512 - 9 - 2 = 501`, 256 template-table slots, 128-byte UIDs, 32-byte
serial numbers, at most 10 fingers, 3 users and 16 notepad pages. -/
theorem c8_mafpmoc_wire_constants :
    PACKAGE_HEADER_SIZE = 9 ∧
    PACKAGE_CRC_SIZE = 2 ∧
    MAFP_USB_BUFFER_SIZE = 512 ∧
    PACKAGE_DATA_SIZE_MAX =
      MAFP_USB_BUFFER_SIZE - PACKAGE_HEADER_SIZE - PACKAGE_CRC_SIZE ∧
    PACKAGE_DATA_SIZE_MAX = 501 ∧
    TPL_TABLE_SLOTS = 256 ∧
    TEMPLATE_UID_SIZE = 128 ∧
    DEVICE_SN_SIZE = 32 ∧
    MAX_FINGER_NUM = 10 ∧
    MAX_USER_NUM = 3 ∧
    MAX_NOTEPAD_PAGE = 16 ∧
    (∀ t : mafp_tpl_table_t, t.list.toList.length = 256) ∧
    (∀ t : mafp_template_t, t.sn.toList.length = 32 ∧ t.uid.toList.length = 128) := by
  refine ⟨rfl, rfl, rfl, rfl, rfl, rfl, rfl, rfl, rfl, rfl, rfl, ?_, ?_⟩
  · intro t
    exact t.list.toList_length
  · intro t
    exact ⟨t.sn.toList_length, t.uid.toList_length⟩

/-- C7: the thermal gate applies only to biometric operations — open,
close and list never touch the temperature model and never fail with a
too-hot error, whatever the device state. -/
theorem c7_open_close_list_never_too_hot (priv : FpDevicePrivate)
    (cls : FpDeviceClass) (cancelled usbOpenOk : Bool) :
    ((fp_device_open priv cancelled usbOpenOk).2.temp = priv.temp ∧
     (fp_device_open priv cancelled usbOpenOk).1 ≠
       TaskReturn.error FpDeviceError.tooHot) ∧
    ((fp_device_close priv cancelled).2.temp = priv.temp ∧
     (fp_device_close priv cancelled).1 ≠
       TaskReturn.error FpDeviceError.tooHot) ∧
    ((fp_device_list_prints priv cls cancelled).2.temp = priv.temp ∧
     (fp_device_list_prints priv cls cancelled).1 ≠
       TaskReturn.error FpDeviceError.tooHot) := by
  refine ⟨⟨?_, ?_⟩, ⟨?_, ?_⟩, ?_, ?_⟩ <;>
  · simp only [fp_device_open, fp_device_close, fp_device_list_prints,
      setup_task_cancellable, fpi_device_report_finger_status]
    split_ifs <;> simp

/-- C10: whenever the supplied cancellable is already cancelled at call
time, each of the nine cancellable-checking operations resolves with the
cancellation error before any precondition is consulted and leaves the
device state unchanged; suspend and resume never look at their cancellable
at entry (their result does not depend on it). -/
theorem c10_cancelled_at_entry (priv : FpDevicePrivate)
    (cls : FpDeviceClass) (tp : Option FpPrint) (now : ℕ)
    (usbOpenOk galleryNull wff c : Bool) :
    fp_device_open priv true usbOpenOk =
      (TaskReturn.error FpDeviceError.cancelled, priv) ∧
    fp_device_close priv true =
      (TaskReturn.error FpDeviceError.cancelled, priv) ∧
    fp_device_enroll priv true tp now =
      (TaskReturn.error FpDeviceError.cancelled, priv) ∧
    fp_device_verify priv cls true now =
      (TaskReturn.error FpDeviceError.cancelled, priv) ∧
    fp_device_identify priv cls true galleryNull now =
      (TaskReturn.error FpDeviceError.cancelled, priv) ∧
    fp_device_capture priv cls wff true now =
      (TaskReturn.error FpDeviceError.cancelled, priv) ∧
    fp_device_delete_print priv cls true =
      (TaskReturn.error FpDeviceError.cancelled, priv) ∧
    fp_device_list_prints priv cls true =
      (TaskReturn.error FpDeviceError.cancelled, priv) ∧
    fp_device_clear_storage priv true =
      (TaskReturn.error FpDeviceError.cancelled, priv) ∧
    fp_device_suspend priv c = fp_device_suspend priv false ∧
    fp_device_resume priv c = fp_device_resume priv false :=
  ⟨rfl, rfl, rfl, rfl, rfl, rfl, rfl, rfl, rfl, rfl, rfl⟩

/-- A removed device that is otherwise idle and not suspended. -/
def removedIdleDevice : FpDevicePrivate :=
  { idleOpenDevice with is_removed := true }

/-- A device state with its openness, active-task slot and active-action
slot overridden (used to state that suspend and resume ignore these
fields). -/
def with_open_task (p : FpDevicePrivate) (b t : Bool) (a : FpiDeviceAction) : FpDevicePrivate :=
  { p with is_open := b, current_task := t, current_action := a }

/-- C1 (amended): with an operation already pending (`current_task` set)
and the cancellable not yet cancelled, every second call resolves
immediately with an error and leaves the device state — active-operation
slot, thermal state and cancellation tokens included — unchanged, with no
driver entry point invoked; the error is "busy" whenever the second
call's openness precondition holds, while `open` on an already-open
device fails with "already-open" and the other actions on a not-yet-open
device fail with "not-open", the openness check preceding the busy
check. -/
theorem c1_second_operation_rejected (priv : FpDevicePrivate)
    (cls : FpDeviceClass) (tp : Option FpPrint) (now : ℕ)
    (usbOpenOk galleryNull wff : Bool) (h : priv.current_task = true) :
    fp_device_open priv false usbOpenOk =
      (TaskReturn.error (if priv.is_open then FpDeviceError.alreadyOpen
                         else FpDeviceError.busy), priv) ∧
    fp_device_close priv false =
      (TaskReturn.error (if priv.is_open then FpDeviceError.busy
                         else FpDeviceError.notOpen), priv) ∧
    fp_device_enroll priv false tp now =
      (TaskReturn.error (if priv.is_open then FpDeviceError.busy
                         else FpDeviceError.notOpen), priv) ∧
    fp_device_verify priv cls false now =
      (TaskReturn.error (if priv.is_open then FpDeviceError.busy
                         else FpDeviceError.notOpen), priv) ∧
    fp_device_identify priv cls false galleryNull now =
      (TaskReturn.error (if priv.is_open then FpDeviceError.busy
                         else FpDeviceError.notOpen), priv) ∧
    fp_device_capture priv cls wff false now =
      (TaskReturn.error (if priv.is_open then FpDeviceError.busy
                         else FpDeviceError.notOpen), priv) ∧
    fp_device_delete_print priv cls false =
      (TaskReturn.error (if priv.is_open then FpDeviceError.busy
                         else FpDeviceError.notOpen), priv) ∧
    fp_device_list_prints priv cls false =
      (TaskReturn.error (if priv.is_open then FpDeviceError.busy
                         else FpDeviceError.notOpen), priv) ∧
    fp_device_clear_storage priv false =
      (TaskReturn.error (if priv.is_open then FpDeviceError.busy
                         else FpDeviceError.notOpen), priv) := by
  cases hopen : priv.is_open <;>
    simp [fp_device_open, fp_device_close, fp_device_enroll,
      fp_device_verify, fp_device_identify, fp_device_capture,
      fp_device_delete_print, fp_device_list_prints,
      fp_device_clear_storage, h, hopen]

/-- C1 witness: on a concrete open device with a pending verify, a second
`open` call is rejected without side effects. -/
theorem c1_second_operation_rejected_witness :
    busyOpenDevice.current_task = true ∧
    fp_device_open busyOpenDevice false true =
      (TaskReturn.error (if busyOpenDevice.is_open then
         FpDeviceError.alreadyOpen else FpDeviceError.busy),
       busyOpenDevice) :=
  ⟨rfl,
   (c1_second_operation_rejected busyOpenDevice clsAll none 0 true false
      false rfl).1⟩

/-- C1 counterexample: on an open device with an operation already
pending, a second `open` call resolves with "already-open", not with the
"busy" error the claim requires for every second operation. -/
theorem c1_counterexample_open_not_busy :
    fp_device_open busyOpenDevice false true =
      (TaskReturn.error FpDeviceError.alreadyOpen, busyOpenDevice) ∧
    FpDeviceError.alreadyOpen ≠ FpDeviceError.busy :=
  ⟨rfl, by decide⟩

/-- C3: the code contradicts the suspend contract — on a suspended but
otherwise idle device with storage features, `fp_device_clear_storage`
skips the `is_suspended` half of the busy check, records the operation
and invokes the driver's clear-storage entry point, while every other
action (list, delete, close shown here) fails with "busy" on the same
device. -/
theorem c3_clear_storage_ignores_suspended :
    fp_device_clear_storage suspendedDevice false =
      (TaskReturn.pending DriverEntry.dClearStorage,
       { suspendedDevice with
           current_action := FpiDeviceAction.CLEAR_STORAGE,
           current_task := true, current_cancellable := true }) ∧
    fp_device_list_prints suspendedDevice clsAll false =
      (TaskReturn.error FpDeviceError.busy, suspendedDevice) ∧
    fp_device_delete_print suspendedDevice clsAll false =
      (TaskReturn.error FpDeviceError.busy, suspendedDevice) ∧
    fp_device_close suspendedDevice false =
      (TaskReturn.error FpDeviceError.busy, suspendedDevice) :=
  ⟨rfl, rfl, rfl, rfl⟩

/-- C2: on an open, idle, non-suspended device whose thermal state is hot
after the entry update, enroll (with a fresh template), verify, identify
and capture all fail immediately with "too-hot", no driver entry point is
invoked, the device is left in the too-hot failure state, and the thermal
"active" timer started just before the check is stopped again (the model
ends inactive). -/
theorem c2_hot_blocks_biometric (priv : FpDevicePrivate)
    (cls : FpDeviceClass) (tp : FpPrint) (now : ℕ) (wff : Bool)
    (h1 : priv.is_open = true) (h2 : priv.current_task = false)
    (h3 : priv.is_suspended = false)
    (htp : tp.fpiType = FpiPrintType.undefined)
    (hv : cls.verify = true) (hfv : priv.features.verify = true)
    (hi : cls.identify = true) (hfi : priv.features.identify = true)
    (hc : cls.capture = true) (hfc : priv.features.capture = true)
    (hhot : (fpi_device_update_temp priv.temp now true).tempCurrent =
      FpTemperature.HOT) :
    fp_device_enroll priv false (some tp) now =
      (TaskReturn.error FpDeviceError.tooHot, thermal_fail_state priv now) ∧
    fp_device_verify priv cls false now =
      (TaskReturn.error FpDeviceError.tooHot, thermal_fail_state priv now) ∧
    fp_device_identify priv cls false false now =
      (TaskReturn.error FpDeviceError.tooHot, thermal_fail_state priv now) ∧
    fp_device_capture priv cls wff false now =
      (TaskReturn.error FpDeviceError.tooHot, thermal_fail_state priv now) ∧
    (thermal_fail_state priv now).temp.active = false := by
  refine ⟨?_, ?_, ?_, ?_, ?_⟩
  · simp [fp_device_enroll, thermal_fail_state, h1, h2, h3, htp, hhot]
  · simp [fp_device_verify, thermal_fail_state, h1, h2, h3, hv, hfv, hhot]
  · simp [fp_device_identify, thermal_fail_state, h1, h2, h3, hi, hfi, hhot]
  · simp [fp_device_capture, thermal_fail_state, h1, h2, h3, hc, hfc, hhot]
  · simpa [thermal_fail_state] using
      update_temp_inactive (fpi_device_update_temp priv.temp now true) now

/-- C2 witness: on a concrete saturated-hot open device, enroll fails
too-hot and the thermal model is returned to inactive. -/
theorem c2_hot_blocks_biometric_witness :
    fp_device_enroll hotOpenDevice false (some tp0) 0 =
      (TaskReturn.error FpDeviceError.tooHot, thermal_fail_state hotOpenDevice 0) ∧
    (thermal_fail_state hotOpenDevice 0).temp.active = false :=
  ⟨(c2_hot_blocks_biometric hotOpenDevice clsAll tp0 0 false rfl rfl rfl
      rfl rfl rfl rfl rfl rfl rfl (by decide)).1,
   (c2_hot_blocks_biometric hotOpenDevice clsAll tp0 0 false rfl rfl rfl
      rfl rfl rfl rfl rfl rfl rfl (by decide)).2.2.2.2⟩

/-- C5: on a device that is not open, enroll fails with "not-open" and the
driver's enroll entry point is not invoked; on an open, idle,
non-suspended, non-hot device with a fresh template print, the same call
records enroll as the active operation and invokes the driver's enroll
entry point. -/
theorem c5_enroll_open_gate (privA privB : FpDevicePrivate) (tp : FpPrint)
    (now : ℕ)
    (hA : privA.is_open = false)
    (hB1 : privB.is_open = true) (hB2 : privB.current_task = false)
    (hB3 : privB.is_suspended = false)
    (htp : tp.fpiType = FpiPrintType.undefined)
    (hhot : (fpi_device_update_temp privB.temp now true).tempCurrent ≠
      FpTemperature.HOT) :
    fp_device_enroll privA false (some tp) now =
      (TaskReturn.error FpDeviceError.notOpen, privA) ∧
    fp_device_enroll privB false (some tp) now =
      (TaskReturn.pending DriverEntry.dEnroll,
       enroll_started_state privB now) := by
  constructor
  · simp [fp_device_enroll, hA]
  · simp [fp_device_enroll, enroll_started_state, setup_task_cancellable,
      hB1, hB2, hB3, htp, hhot]

/-- C5 witness: the concrete fixture device rejects enroll before `open`
and admits it after. -/
theorem c5_enroll_open_gate_witness :
    fp_device_enroll closedDevice false (some tp0) 0 =
      (TaskReturn.error FpDeviceError.notOpen, closedDevice) ∧
    fp_device_enroll idleOpenDevice false (some tp0) 0 =
      (TaskReturn.pending DriverEntry.dEnroll,
       enroll_started_state idleOpenDevice 0) :=
  c5_enroll_open_gate closedDevice idleOpenDevice tp0 0 rfl rfl rfl rfl
    rfl (by decide)

/-- C9: on an open, idle, non-suspended device whose driver lacks a delete
entry point or the storage-delete feature bit, delete-print resolves
immediately with success (TRUE) rather than "not-supported", without
invoking any driver code and without recording an active operation (the
state is unchanged). -/
theorem c9_delete_unsupported_succeeds (priv : FpDevicePrivate)
    (cls : FpDeviceClass)
    (h1 : priv.is_open = true) (h2 : priv.current_task = false)
    (h3 : priv.is_suspended = false)
    (h4 : cls.delete = false ∨ priv.features.storageDelete = false) :
    fp_device_delete_print priv cls false = (TaskReturn.ok, priv) ∧
    TaskReturn.ok ≠ TaskReturn.error FpDeviceError.notSupported := by
  refine ⟨?_, by decide⟩
  rcases h4 with h4 | h4 <;>
    simp [fp_device_delete_print, h1, h2, h3, h4]

/-- C9 witness: a concrete open idle device with a driver that has no
delete entry point. -/
theorem c9_delete_unsupported_succeeds_witness :
    fp_device_delete_print idleOpenDevice clsNoDelete false =
      (TaskReturn.ok, idleOpenDevice) :=
  (c9_delete_unsupported_succeeds idleOpenDevice clsNoDelete rfl rfl rfl
    (Or.inl rfl)).1

/-- C4 (amended): when the scheduled idle cancellation runs on an active
operation, the idle source slot is cleared; inside a critical section the
driver-cancel call is deferred by setting the "cancel is queued" flag and
the driver's cancel hook is not called, otherwise the cancel hook is
invoked (and the queued flag is untouched); in both cases — not only
after the cancel hook has run — the finger-presence status is forcibly
cleared to "none" at the end of the callback regardless of prior
state. -/
theorem c4_idle_cancel_behaviour (priv : FpDevicePrivate)
    (h : priv.current_action ≠ FpiDeviceAction.NONE) :
    (priv.critical_section = true →
      (fp_device_cancel_in_idle_cb priv).cancelCalled = false ∧
      (fp_device_cancel_in_idle_cb priv).priv.cancel_queued = true) ∧
    (priv.critical_section = false →
      (fp_device_cancel_in_idle_cb priv).cancelCalled = true ∧
      (fp_device_cancel_in_idle_cb priv).priv.cancel_queued =
        priv.cancel_queued) ∧
    (fp_device_cancel_in_idle_cb priv).priv.finger_status =
      FpFingerStatus.NONE ∧
    (fp_device_cancel_in_idle_cb priv).priv.current_idle_cancel_source =
      false := by
  cases hcs : priv.critical_section <;>
    simp [fp_device_cancel_in_idle_cb, fpi_device_report_finger_status, hcs]

/-- C4 witness: concrete critical-section device — the cancel is queued,
the hook is not called, and the slot and finger status are cleared. -/
theorem c4_idle_cancel_behaviour_witness :
    (fp_device_cancel_in_idle_cb criticalVerifyDevice).priv.finger_status =
      FpFingerStatus.NONE ∧
    (fp_device_cancel_in_idle_cb criticalVerifyDevice).priv.current_idle_cancel_source =
      false :=
  ⟨(c4_idle_cancel_behaviour criticalVerifyDevice (by decide)).2.2.1,
   (c4_idle_cancel_behaviour criticalVerifyDevice (by decide)).2.2.2⟩

/-- C4 counterexample: with the driver inside a critical section and a
finger present, the idle cancellation defers the driver-cancel call (the
hook is not invoked) and yet the finger-presence status is cleared to
"none" — the clearing is not gated on the cancel hook having run, contrary
to the claim. -/
theorem c4_counterexample_finger_cleared_without_cancel :
    (fp_device_cancel_in_idle_cb criticalVerifyDevice).cancelCalled = false ∧
    (fp_device_cancel_in_idle_cb criticalVerifyDevice).priv.finger_status =
      FpFingerStatus.NONE ∧
    criticalVerifyDevice.finger_status = FpFingerStatus.PRESENT :=
  ⟨rfl, rfl, rfl⟩

/-- C6 (amended): suspend and resume never consult device openness or the
general active-operation slot, and their two rejection conditions are
checked busy-first: suspend fails "busy" whenever a suspend/resume is
pending or the device is already suspended — on every device, removed or
not — and fails "removed" on a removed device only otherwise; resume
fails "busy" whenever a suspend/resume is pending or the device is not
suspended — again on every device, removed or not — and fails "removed"
on a removed device only otherwise. -/
theorem c6_suspend_resume_precedence (p1 p2 p3 p4 p5 : FpDevicePrivate)
    (b t c : Bool) (a : FpiDeviceAction)
    (h12 : p1.is_suspended = true ∨ p1.suspend_resume_task = true)
    (h21 : p2.suspend_resume_task = false) (h22 : p2.is_suspended = false)
    (h23 : p2.is_removed = true)
    (h32 : p3.is_suspended = false ∨ p3.suspend_resume_task = true)
    (h41 : p4.suspend_resume_task = false) (h42 : p4.is_suspended = true)
    (h43 : p4.is_removed = true) :
    fp_device_suspend p1 c = (TaskReturn.error FpDeviceError.busy, p1) ∧
    fp_device_suspend p2 c = (TaskReturn.error FpDeviceError.removed, p2) ∧
    fp_device_resume p3 c = (TaskReturn.error FpDeviceError.busy, p3) ∧
    fp_device_resume p4 c = (TaskReturn.error FpDeviceError.removed, p4) ∧
    (fp_device_suspend (with_open_task p5 b t a) c).1 =
      (fp_device_suspend p5 c).1 ∧
    (fp_device_resume (with_open_task p5 b t a) c).1 =
      (fp_device_resume p5 c).1 := by
  refine ⟨?_, ?_, ?_, ?_, ?_, ?_⟩
  · rcases h12 with h12 | h12 <;> simp [fp_device_suspend, h12]
  · simp [fp_device_suspend, h21, h22, h23]
  · rcases h32 with h32 | h32 <;> simp [fp_device_resume, h32]
  · simp [fp_device_resume, h41, h42, h43]
  · simp only [fp_device_suspend, with_open_task]
    split_ifs <;> rfl
  · simp only [fp_device_resume, with_open_task]
    split_ifs <;> rfl

/-- C6 witness: concrete removed devices exercising each rejection case
and the openness/active-slot independence. -/
theorem c6_suspend_resume_precedence_witness :
    fp_device_suspend removedSuspendedDevice false =
      (TaskReturn.error FpDeviceError.busy, removedSuspendedDevice) ∧
    fp_device_suspend removedIdleDevice false =
      (TaskReturn.error FpDeviceError.removed, removedIdleDevice) ∧
    fp_device_resume removedIdleDevice false =
      (TaskReturn.error FpDeviceError.busy, removedIdleDevice) ∧
    fp_device_resume removedSuspendedDevice false =
      (TaskReturn.error FpDeviceError.removed, removedSuspendedDevice) :=
  ⟨(c6_suspend_resume_precedence removedSuspendedDevice removedIdleDevice
      removedIdleDevice removedSuspendedDevice idleOpenDevice false false
      false FpiDeviceAction.NONE (Or.inl rfl) rfl rfl rfl
      (Or.inl rfl) rfl rfl rfl).1,
   (c6_suspend_resume_precedence removedSuspendedDevice removedIdleDevice
      removedIdleDevice removedSuspendedDevice idleOpenDevice false false
      false FpiDeviceAction.NONE (Or.inl rfl) rfl rfl rfl
      (Or.inl rfl) rfl rfl rfl).2.1,
   (c6_suspend_resume_precedence removedSuspendedDevice removedIdleDevice
      removedIdleDevice removedSuspendedDevice idleOpenDevice false false
      false FpiDeviceAction.NONE (Or.inl rfl) rfl rfl rfl
      (Or.inl rfl) rfl rfl rfl).2.2.1,
   (c6_suspend_resume_precedence removedSuspendedDevice removedIdleDevice
      removedIdleDevice removedSuspendedDevice idleOpenDevice false false
      false FpiDeviceAction.NONE (Or.inl rfl) rfl rfl rfl
      (Or.inl rfl) rfl rfl rfl).2.2.2.1⟩

/-- C6 counterexample: a device that is both removed and suspended is
rejected by suspend with "busy", not with the "removed" the claim requires
for every removed device. -/
theorem c6_counterexample_busy_beats_removed :
    fp_device_suspend removedSuspendedDevice false =
      (TaskReturn.error FpDeviceError.busy, removedSuspendedDevice) ∧
    removedSuspendedDevice.is_removed = true ∧
    FpDeviceError.busy ≠ FpDeviceError.removed :=
  ⟨rfl, rfl, by decide⟩
